import Mathlib

/-
Shallow embedding of the salt-statuscake repository
(execution module src/module/statuscake.py and state module
src/state/statuscake_test.py).

Python dictionaries whose keys are field names are embedded as ordered
association lists; Python truthiness is made explicit on an inductive
Value type; Python runtime faults (NameError on an undefined variable,
KeyError, TypeError) are made explicit through an Except layer; the HTTP
transport and the salt configuration lookup are inputs of the embedded
functions.
-/

namespace Statuscake

/-- A Python scalar value as it occurs in this code base: the schema
defaults are an int and a string, callers may also pass booleans or None. -/
inductive Value where
  | int : Int → Value
  | str : String → Value
  | bool : Bool → Value
  | none : Value
deriving DecidableEq

/-- Python truthiness of a Value: 0, the empty string, False and None are
falsy, everything else is truthy. -/
def Value.truthy : Value → Bool
  | Value.int n => decide (n ≠ 0)
  | Value.str s => decide (s ≠ "")
  | Value.bool b => b
  | Value.none => false

/-- One entry of STATUSCAKE_PARAMS_DEFINITION: the dict
mandatory-flag plus optional default of a field. -/
structure FieldSpec where
  mandatory : Bool
  default : Option Value
deriving DecidableEq

/-- A schema: field name to FieldSpec, in the insertion order of the
Python dict literal. -/
abbrev Schema := List (String × FieldSpec)

/-- A caller supplied field mapping (Python kwargs / the args dict built
by build_args), in insertion order. -/
abbrev Fields := List (String × Value)

/-- Keys of an association list, in order. -/
def keys {α : Type} (l : List (String × α)) : List String := l.map Prod.fst

/-- Dictionary lookup on an association list (first hit). -/
def lookupF : Fields → String → Option Value
  | [], _ => Option.none
  | (k2, v) :: rest, k => if k2 = k then Option.some v else lookupF rest k

/-- Python dict assignment kwargs[k] = v: overwrite in place when the key
exists, append otherwise. -/
def setField (kwargs : Fields) (k : String) (v : Value) : Fields :=
  if (keys kwargs).contains k then
    kwargs.map (fun p => if p.1 = k then (k, v) else p)
  else kwargs ++ [(k, v)]

/-- The test schema from STATUSCAKE_PARAMS_DEFINITION in
src/module/statuscake.py, in source order. -/
def testSchema : Schema := [
  ("TestID", ⟨false, Option.none⟩),
  ("Paused", ⟨false, Option.none⟩),
  ("WebsiteName", ⟨true, Option.none⟩),
  ("WebsiteURL", ⟨true, Option.none⟩),
  ("Port", ⟨false, Option.none⟩),
  ("NodeLocations", ⟨false, Option.none⟩),
  ("Timeout", ⟨false, Option.none⟩),
  ("PingURL", ⟨false, Option.none⟩),
  ("Confirmation", ⟨false, Option.none⟩),
  ("CheckRate", ⟨true, Option.some (Value.int 300)⟩),
  ("BasicUser", ⟨false, Option.none⟩),
  ("BasicPass", ⟨false, Option.none⟩),
  ("Public", ⟨false, Option.none⟩),
  ("LogoImage", ⟨false, Option.none⟩),
  ("Branding", ⟨false, Option.none⟩),
  ("WebsiteHost", ⟨false, Option.none⟩),
  ("Virus", ⟨false, Option.none⟩),
  ("FindString", ⟨false, Option.none⟩),
  ("DoNotFind", ⟨false, Option.none⟩),
  ("TestType", ⟨true, Option.some (Value.str "HTTP")⟩),
  ("ContactGroup", ⟨false, Option.none⟩),
  ("RealBrowser", ⟨false, Option.none⟩),
  ("TriggerRate", ⟨false, Option.none⟩),
  ("TestTags", ⟨false, Option.none⟩),
  ("StatusCodes", ⟨false, Option.none⟩)
]

/-- The registry STATUSCAKE_PARAMS_DEFINITION: resource type to schema. -/
def STATUSCAKE_PARAMS_DEFINITION : List (String × Schema) := [("test", testSchema)]

/-- Lookup in the schema registry. -/
def lookupSchema : List (String × Schema) → String → Option Schema
  | [], _ => Option.none
  | (k2, s) :: rest, k => if k2 = k then Option.some s else lookupSchema rest k

/-- A Python runtime fault surfacing as an exception. -/
inductive PyError where
  | nameError : String → PyError
  | keyError : String → PyError
  | typeError : String → PyError
  | exception : String → PyError
deriving DecidableEq

/-- Outcome of build_args: the res True dict with data, or the res False
dict with a message and no data key. -/
inductive BuildResult where
  | ok : Fields → BuildResult
  | err : String → BuildResult
deriving DecidableEq

/-- What one iteration of the build_args loop does with a schema field:
add a value to args, skip the field, or abort with the
missing-mandatory-field failure. Faithful to the if/elif chain at
src/module/statuscake.py lines 88-99. -/
inductive FieldAction where
  | add : Value → FieldAction
  | skip : FieldAction
  | fail : FieldAction
deriving DecidableEq

/-- The per-field decision of the build_args loop body. -/
def fieldAction (kwargs : Fields) (k : String) (config : FieldSpec) : FieldAction :=
  if config.mandatory then
    match lookupF kwargs k with
    | Option.some v => FieldAction.add v
    | Option.none =>
      match config.default with
      | Option.some d => FieldAction.add d
      | Option.none => FieldAction.fail
  else
    match lookupF kwargs k with
    | Option.some v => FieldAction.add v
    | Option.none =>
      match config.default with
      | Option.some d => if d.truthy then FieldAction.add d else FieldAction.skip
      | Option.none => FieldAction.skip

/-- The build_args loop over the schema entries, accumulating the args
dict in insertion order. -/
def buildLoop (kwargs : Fields) : Schema → Fields → BuildResult
  | [], args => BuildResult.ok args
  | (k, config) :: rest, args =>
    match fieldAction kwargs k config with
    | FieldAction.add v => buildLoop kwargs rest (args ++ [(k, v)])
    | FieldAction.skip => buildLoop kwargs rest args
    | FieldAction.fail => BuildResult.err ("Mandatory params " ++ k ++ " is missing")

/-- build_args from src/module/statuscake.py lines 77-101: an unknown
resource type raises, otherwise the loop validates and defaults the
supplied fields against the schema. -/
def build_args (obj : String) (kwargs : Fields) : Except PyError BuildResult :=
  match lookupSchema STATUSCAKE_PARAMS_DEFINITION obj with
  | Option.none => Except.error (PyError.exception (obj ++ " not in STATUSCAKE_PARAMS_DEFINITION"))
  | Option.some schema => Except.ok (buildLoop kwargs schema [])

/-- The first schema field the build_args loop aborts on: mandatory,
absent from kwargs, no default. -/
def firstMissing (kwargs : Fields) : Schema → Option String
  | [] => Option.none
  | (k, config) :: rest =>
    match fieldAction kwargs k config with
    | FieldAction.fail => Option.some k
    | FieldAction.add _ => firstMissing kwargs rest
    | FieldAction.skip => firstMissing kwargs rest

/-- One entry of the list returned by the full test list fetch, with the
two fields search_test reads. -/
structure TestEntry where
  WebsiteName : String
  TestID : Int
deriving DecidableEq

/-- The dict search_test returns: res flag, message, and the id key when
it was set. -/
structure SearchResult where
  res : Bool
  message : String
  id : Option Int
deriving DecidableEq

/-- Outcome of get_all_tests as seen by search_test: the parsed entry
list on success, or a res False dict carrying a message. -/
inductive FetchResult where
  | ok : List TestEntry → FetchResult
  | err : String → FetchResult
deriving DecidableEq

/-- The scan loop of search_test (src/module/statuscake.py lines
333-340) over the fetched entries; the state is the mutable triple
(ret res flag, ret message, result). -/
def searchLoop (name : String) :
    List TestEntry → Bool × String × Option TestEntry → Bool × String × Option TestEntry
  | [], st => st
  | t :: rest, st =>
    if t.WebsiteName ≠ name then searchLoop name rest st
    else
      match st with
      | (_, _, Option.some r) =>
        searchLoop name rest
          (false, "We have multiple test with this name : " ++ name, Option.some r)
      | (res2, msg2, Option.none) => searchLoop name rest (res2, msg2, Option.some t)

/-- search_test from src/module/statuscake.py lines 309-348. A falsy
name makes the guard evaluate the undefined module level variable url,
which raises NameError at runtime; that fault is made explicit here. The
outcome of the get_all_tests fetch is an input. -/
def search_test (name : String) (fetch : FetchResult) : Except PyError SearchResult :=
  if name = "" then Except.error (PyError.nameError "url")
  else
    match fetch with
    | FetchResult.err m => Except.ok { res := false, message := m, id := Option.none }
    | FetchResult.ok data =>
      match searchLoop name data (true, "", Option.none) with
      | (_, _, Option.none) =>
        Except.ok { res := false,
                    message := "No test found with this name : " ++ name,
                    id := Option.none }
      | (res2, msg2, Option.some result) =>
        Except.ok { res := res2, message := msg2, id := Option.some result.TestID }

/-- The entries of the fetched list whose WebsiteName equals the searched
name, in list order. -/
def matchesName (name : String) : List TestEntry → List TestEntry
  | [] => []
  | t :: rest =>
    if t.WebsiteName = name then t :: matchesName name rest else matchesName name rest

/-- The parsed body of an OK response to the create/update endpoint. -/
structure ServerResp where
  Success : Bool
  Message : String
  Data : Value
deriving DecidableEq

/-- An HTTP response as interpreted by status code: OK with a parsed
dict, NO_CONTENT, or any other status. -/
inductive HttpResp where
  | okJson : ServerResp → HttpResp
  | noContent : HttpResp
  | other : HttpResp
deriving DecidableEq

/-- The value _handle_generic_result produces: a res/message dict with
the raw server dict when one was parsed, or the bare Python True
returned on NO_CONTENT. -/
inductive GenericRet where
  | dict : Bool → String → Option ServerResp → GenericRet
  | pyTrue : GenericRet
deriving DecidableEq

/-- _handle_generic_result from src/module/statuscake.py lines 134-153.
On any status other than OK or NO_CONTENT the Python body evaluates
log.debug(url) where url is undefined in that scope, raising NameError;
that fault is made explicit. -/
def handle_generic_result : HttpResp → Except PyError GenericRet
  | HttpResp.okJson r =>
    if r.Success then Except.ok (GenericRet.dict true r.Message (Option.some r))
    else Except.ok (GenericRet.dict false r.Message (Option.some r))
  | HttpResp.noContent => Except.ok GenericRet.pyTrue
  | HttpResp.other => Except.error (PyError.nameError "url")

/-- Credential resolution of _check_api_key / _check_api_username: the
explicit argument wins, else the configuration lookup, else the failure
message. -/
def check_cred (explicit : Option String) (config : Option String) (errMsg : String) :
    Except String String :=
  match explicit with
  | Option.some v => Except.ok v
  | Option.none =>
    match config with
    | Option.some v => Except.ok v
    | Option.none => Except.error errMsg

/-- The environment of one state layer invocation: the configuration
values the credential lookups resolve to (Option.none models absent or
falsy), and the transport response to the create PUT request. -/
structure Env where
  apiKeyConfig : Option String
  usernameConfig : Option String
  putResp : HttpResp
deriving DecidableEq

/-- An observable remote write effect of the state layer: the add_test
module function being invoked, and an HTTP PUT to the test
create/update endpoint carrying the validated params. -/
inductive Event where
  | createCall : Event
  | httpPut : Fields → Event
deriving DecidableEq

/-- add_test from src/module/statuscake.py lines 241-273 composed with
_query lines 156-214: force the four header fields into kwargs, validate
through build_args (returning its failure dict unchanged), resolve
credentials, send the PUT and interpret the response. The returned list
records the remote write effects in order; it is populated even when a
later step raises. -/
def add_test (WebsiteName WebsiteURL CheckRate TestType : Value)
    (api_key api_username : Option String) (kwargs : Fields) (env : Env) :
    Except PyError GenericRet × List Event :=
  let kw := setField (setField (setField (setField kwargs
              "WebsiteName" WebsiteName) "WebsiteURL" WebsiteURL)
              "CheckRate" CheckRate) "TestType" TestType
  match build_args "test" kw with
  | Except.error e => (Except.error e, [Event.createCall])
  | Except.ok (BuildResult.err m) =>
    (Except.ok (GenericRet.dict false m Option.none), [Event.createCall])
  | Except.ok (BuildResult.ok params) =>
    match check_cred api_key env.apiKeyConfig "No Statuscake api_key found" with
    | Except.error m =>
      (Except.ok (GenericRet.dict false m Option.none), [Event.createCall])
    | Except.ok _ =>
      match check_cred api_username env.usernameConfig "No Statuscake username found" with
      | Except.error m =>
        (Except.ok (GenericRet.dict false m Option.none), [Event.createCall])
      | Except.ok _ =>
        match handle_generic_result env.putResp with
        | Except.error e => (Except.error e, [Event.createCall, Event.httpPut params])
        | Except.ok r => (Except.ok r, [Event.createCall, Event.httpPut params])

/-- The decision dict returned by the state function present. For the
changes dict, an outer Option.none models an absent key; changesOld is
Option.some Option.none when the old key is present holding Python
None. -/
structure Decision where
  name : String
  result : Option Bool
  comment : String
  changesOld : Option (Option Value)
  changesNew : Option Value
  error : Option String
deriving DecidableEq

/-- present from src/state/statuscake_test.py lines 60-125. The search
outcome, the dry run flag and the environment are inputs; the second
component records the remote write effects. Reading res on the bare True
that add_test returns for a NO_CONTENT response is a TypeError, and
reading the missing raw or id keys is a KeyError; those faults are made
explicit. -/
def present (name WebsiteName WebsiteURL : String) (CheckRate TestType : Value)
    (kwargs : Fields) (search : SearchResult) (dryRun : Bool) (env : Env) :
    Except PyError Decision × List Event :=
  if search.res then
    match search.id with
    | Option.none => (Except.error (PyError.keyError "id"), [])
    | Option.some _ =>
      if dryRun then
        (Except.ok { name := name, result := Option.none,
                     comment := "Statuscake tests " ++ WebsiteName ++ " set to be updated.",
                     changesOld := Option.none, changesNew := Option.none,
                     error := Option.none }, [])
      else
        (Except.ok { name := name, result := Option.some true,
                     comment := "Not updating because will cannot check data",
                     changesOld := Option.none, changesNew := Option.none,
                     error := Option.none }, [])
  else
    if dryRun then
      (Except.ok { name := name, result := Option.none,
                   comment := "Statuscake test " ++ WebsiteName ++ " set to be added.",
                   changesOld := Option.none, changesNew := Option.none,
                   error := Option.none }, [])
    else
      match add_test (Value.str WebsiteName) (Value.str WebsiteURL) CheckRate TestType
              Option.none Option.none kwargs env with
      | (Except.error e, tr) => (Except.error e, tr)
      | (Except.ok GenericRet.pyTrue, tr) => (Except.error (PyError.typeError "res"), tr)
      | (Except.ok (GenericRet.dict r m raw), tr) =>
        if r then
          match raw with
          | Option.none => (Except.error (PyError.keyError "raw"), tr)
          | Option.some resp =>
            (Except.ok { name := name, result := Option.some true,
                         comment := "Added test " ++ WebsiteName ++ ".",
                         changesOld := Option.some Option.none,
                         changesNew := Option.some resp.Data,
                         error := Option.none }, tr)
        else
          (Except.ok { name := name, result := Option.some false,
                       comment := "Failed to add test " ++ WebsiteName ++ ".",
                       changesOld := Option.none, changesNew := Option.none,
                       error := Option.some m }, tr)

/-- present invoked with its Python default arguments CheckRate=60 and
TestType=HTTP. -/
def present_defaults (name WebsiteName WebsiteURL : String) (kwargs : Fields)
    (search : SearchResult) (dryRun : Bool) (env : Env) :
    Except PyError Decision × List Event :=
  present name WebsiteName WebsiteURL (Value.int 60) (Value.str "HTTP")
    kwargs search dryRun env

/-! Helper lemmas about the build_args loop. -/

theorem lookupF_append_of_not_mem (k : String) (l l2 : Fields) (h : k ∉ keys l) :
    lookupF (l ++ l2) k = lookupF l2 k := by
  induction l with
  | nil => rfl
  | cons p rest ih =>
    obtain ⟨k2, v⟩ := p
    simp only [keys, List.map_cons, List.mem_cons, not_or] at h
    simp only [List.cons_append, lookupF]
    rw [if_neg (fun hh => h.1 hh.symm)]
    exact ih h.2

theorem keys_append {α : Type} (l l2 : List (String × α)) :
    keys (l ++ l2) = keys l ++ keys l2 := by
  simp [keys]

theorem buildLoop_grow (kwargs : Fields) :
    ∀ (schema : Schema) (acc data : Fields),
      buildLoop kwargs schema acc = BuildResult.ok data →
      ∃ tail, data = acc ++ tail ∧ ∀ x ∈ keys tail, x ∈ keys schema := by
  intro schema
  induction schema with
  | nil =>
    intro acc data h
    simp only [buildLoop, BuildResult.ok.injEq] at h
    exact ⟨[], by simp [h], by simp [keys]⟩
  | cons p rest ih =>
    intro acc data h
    obtain ⟨k, config⟩ := p
    cases hact : fieldAction kwargs k config with
    | add v =>
      simp only [buildLoop, hact] at h
      obtain ⟨tail, hdata, hsub⟩ := ih (acc ++ [(k, v)]) data h
      refine ⟨(k, v) :: tail, by simp [hdata], ?_⟩
      intro x hx
      simp only [keys, List.map_cons, List.mem_cons] at hx ⊢
      rcases hx with hx | hx
      · exact Or.inl hx
      · exact Or.inr (hsub x hx)
    | skip =>
      simp only [buildLoop, hact] at h
      obtain ⟨tail, hdata, hsub⟩ := ih acc data h
      refine ⟨tail, hdata, ?_⟩
      intro x hx
      simp only [keys, List.map_cons, List.mem_cons]
      exact Or.inr (hsub x hx)
    | fail =>
      simp only [buildLoop, hact] at h
      cases h

theorem buildLoop_add_lookup (kwargs : Fields) (k : String) (spec : FieldSpec) (d : Value) :
    ∀ (schema : Schema) (acc data : Fields),
      (k, spec) ∈ schema → (keys schema).Nodup →
      fieldAction kwargs k spec = FieldAction.add d →
      k ∉ keys acc →
      buildLoop kwargs schema acc = BuildResult.ok data →
      lookupF data k = Option.some d := by
  intro schema
  induction schema with
  | nil => intro acc data hmem; cases hmem
  | cons p rest ih =>
    intro acc data hmem hnodup hact hacc hrun
    obtain ⟨k1, c1⟩ := p
    simp only [keys, List.map_cons, List.nodup_cons] at hnodup
    by_cases hk : k1 = k
    · subst hk
      have hnotin : k1 ∉ keys rest := hnodup.1
      have hc1 : c1 = spec := by
        rcases List.mem_cons.mp hmem with heq | hmemrest
        · injection heq with _ h2; exact h2.symm
        · exact absurd (List.mem_map_of_mem Prod.fst hmemrest) hnotin
      subst hc1
      simp only [buildLoop, hact] at hrun
      obtain ⟨tail, hdata, hsub⟩ := buildLoop_grow kwargs rest (acc ++ [(k1, d)]) data hrun
      rw [hdata, List.append_assoc]
      rw [lookupF_append_of_not_mem k1 acc _ hacc]
      simp [lookupF]
    · have hmemrest : (k, spec) ∈ rest := by
        rcases List.mem_cons.mp hmem with heq | h2
        · exact absurd (by injection heq with h1 _; exact h1.symm) hk
        · exact h2
      cases hact1 : fieldAction kwargs k1 c1 with
      | add v =>
        simp only [buildLoop, hact1] at hrun
        refine ih (acc ++ [(k1, v)]) data hmemrest hnodup.2 hact ?_ hrun
        rw [keys_append]
        simp only [List.mem_append, keys, List.map_cons, List.map_nil,
          List.mem_singleton, not_or]
        exact ⟨hacc, fun h => hk h.symm⟩
      | skip =>
        simp only [buildLoop, hact1] at hrun
        exact ih acc data hmemrest hnodup.2 hact hacc hrun
      | fail =>
        simp only [buildLoop, hact1] at hrun
        cases hrun

theorem buildLoop_skip_omits (kwargs : Fields) (k : String) (spec : FieldSpec) :
    ∀ (schema : Schema) (acc data : Fields),
      (k, spec) ∈ schema → (keys schema).Nodup →
      fieldAction kwargs k spec = FieldAction.skip →
      k ∉ keys acc →
      buildLoop kwargs schema acc = BuildResult.ok data →
      k ∉ keys data := by
  intro schema
  induction schema with
  | nil => intro acc data hmem; cases hmem
  | cons p rest ih =>
    intro acc data hmem hnodup hact hacc hrun
    obtain ⟨k1, c1⟩ := p
    simp only [keys, List.map_cons, List.nodup_cons] at hnodup
    by_cases hk : k1 = k
    · subst hk
      have hnotin : k1 ∉ keys rest := hnodup.1
      have hc1 : c1 = spec := by
        rcases List.mem_cons.mp hmem with heq | hmemrest
        · injection heq with _ h2; exact h2.symm
        · exact absurd (List.mem_map_of_mem Prod.fst hmemrest) hnotin
      subst hc1
      simp only [buildLoop, hact] at hrun
      obtain ⟨tail, hdata, hsub⟩ := buildLoop_grow kwargs rest acc data hrun
      rw [hdata, keys_append]
      simp only [List.mem_append, not_or]
      exact ⟨hacc, fun hx => hnotin (hsub _ hx)⟩
    · have hmemrest : (k, spec) ∈ rest := by
        rcases List.mem_cons.mp hmem with heq | h2
        · exact absurd (by injection heq with h1 _; exact h1.symm) hk
        · exact h2
      cases hact1 : fieldAction kwargs k1 c1 with
      | add v =>
        simp only [buildLoop, hact1] at hrun
        refine ih (acc ++ [(k1, v)]) data hmemrest hnodup.2 hact ?_ hrun
        rw [keys_append]
        simp only [List.mem_append, keys, List.map_cons, List.map_nil,
          List.mem_singleton, not_or]
        exact ⟨hacc, fun h => hk h.symm⟩
      | skip =>
        simp only [buildLoop, hact1] at hrun
        exact ih acc data hmemrest hnodup.2 hact hacc hrun
      | fail =>
        simp only [buildLoop, hact1] at hrun
        cases hrun

theorem firstMissing_err (kwargs : Fields) :
    ∀ (schema : Schema) (k0 : String),
      firstMissing kwargs schema = Option.some k0 →
      ∀ acc, buildLoop kwargs schema acc =
        BuildResult.err ("Mandatory params " ++ k0 ++ " is missing") := by
  intro schema
  induction schema with
  | nil => intro k0 h; cases h
  | cons p rest ih =>
    intro k0 h acc
    obtain ⟨k, config⟩ := p
    cases hact : fieldAction kwargs k config with
    | add v =>
      simp only [firstMissing, hact] at h
      simp only [buildLoop, hact]
      exact ih k0 h _
    | skip =>
      simp only [firstMissing, hact] at h
      simp only [buildLoop, hact]
      exact ih k0 h _
    | fail =>
      simp only [firstMissing, hact, Option.some.injEq] at h
      subst h
      simp only [buildLoop, hact]

theorem firstMissing_sound (kwargs : Fields) :
    ∀ (schema : Schema) (k0 : String),
      firstMissing kwargs schema = Option.some k0 →
      ∃ spec0, (k0, spec0) ∈ schema ∧ fieldAction kwargs k0 spec0 = FieldAction.fail := by
  intro schema
  induction schema with
  | nil => intro k0 h; cases h
  | cons p rest ih =>
    intro k0 h
    obtain ⟨k, config⟩ := p
    cases hact : fieldAction kwargs k config with
    | add v =>
      simp only [firstMissing, hact] at h
      obtain ⟨spec0, hmem, hfail⟩ := ih k0 h
      exact ⟨spec0, List.mem_cons_of_mem _ hmem, hfail⟩
    | skip =>
      simp only [firstMissing, hact] at h
      obtain ⟨spec0, hmem, hfail⟩ := ih k0 h
      exact ⟨spec0, List.mem_cons_of_mem _ hmem, hfail⟩
    | fail =>
      simp only [firstMissing, hact, Option.some.injEq] at h
      subst h
      exact ⟨config, List.mem_cons_self _ _, hact⟩

theorem firstMissing_of_fail (kwargs : Fields) :
    ∀ (schema : Schema) (k : String) (spec : FieldSpec),
      (k, spec) ∈ schema → fieldAction kwargs k spec = FieldAction.fail →
      ∃ k0, firstMissing kwargs schema = Option.some k0 := by
  intro schema
  induction schema with
  | nil => intro k spec hmem; cases hmem
  | cons p rest ih =>
    intro k spec hmem hfail
    obtain ⟨k1, c1⟩ := p
    cases hact1 : fieldAction kwargs k1 c1 with
    | add v =>
      rcases List.mem_cons.mp hmem with heq | h2
      · exfalso
        simp only [Prod.mk.injEq] at heq
        rw [heq.1, heq.2, hact1] at hfail
        cases hfail
      · obtain ⟨k0, hk0⟩ := ih k spec h2 hfail
        exact ⟨k0, by simp only [firstMissing, hact1]; exact hk0⟩
    | skip =>
      rcases List.mem_cons.mp hmem with heq | h2
      · exfalso
        simp only [Prod.mk.injEq] at heq
        rw [heq.1, heq.2, hact1] at hfail
        cases hfail
      · obtain ⟨k0, hk0⟩ := ih k spec h2 hfail
        exact ⟨k0, by simp only [firstMissing, hact1]; exact hk0⟩
    | fail =>
      exact ⟨k1, by simp only [firstMissing, hact1]⟩

theorem fieldAction_fail_iff (kwargs : Fields) (k : String) (spec : FieldSpec) :
    fieldAction kwargs k spec = FieldAction.fail ↔
      spec.mandatory = true ∧ lookupF kwargs k = Option.none ∧
        spec.default = Option.none := by
  obtain ⟨m, di⟩ := spec
  cases m <;> cases hl : lookupF kwargs k <;>
    rcases di with _ | d <;>
    simp [fieldAction, hl]
  cases hd : d.truthy <;> simp [hd]

theorem build_args_test (kwargs : Fields) :
    build_args "test" kwargs = Except.ok (buildLoop kwargs testSchema []) := rfl

theorem testSchema_keys_nodup : (keys testSchema).Nodup := by decide

/-- C2: a mandatory schema field absent from the supplied kwargs
resolves to its declared default when one exists (first conjunct); with
no default the whole validation fails: no res True data dict is ever
returned, and when that field is the only absent mandatory field without
default, the failure message names exactly it (second conjunct). The
failure dict carries no data by construction of BuildResult.err. -/
theorem build_args_mandatory_policy (kwargs : Fields) (k : String) (spec : FieldSpec)
    (hdecl : (k, spec) ∈ testSchema) (hman : spec.mandatory = true)
    (habs : lookupF kwargs k = Option.none) :
    (∀ d, spec.default = Option.some d →
      ∀ data, build_args "test" kwargs = Except.ok (BuildResult.ok data) →
        lookupF data k = Option.some d)
    ∧ (spec.default = Option.none →
      (∀ data, build_args "test" kwargs ≠ Except.ok (BuildResult.ok data))
      ∧ ((∀ k3 spec3, (k3, spec3) ∈ testSchema → spec3.mandatory = true →
            spec3.default = Option.none → lookupF kwargs k3 = Option.none → k3 = k) →
        build_args "test" kwargs =
          Except.ok (BuildResult.err ("Mandatory params " ++ k ++ " is missing")))) := by
  constructor
  · intro d hd data hok
    rw [build_args_test] at hok
    have hok2 : buildLoop kwargs testSchema [] = BuildResult.ok data := by
      injection hok
    have hact : fieldAction kwargs k spec = FieldAction.add d := by
      simp [fieldAction, hman, habs, hd]
    exact buildLoop_add_lookup kwargs k spec d testSchema [] data hdecl
      testSchema_keys_nodup hact (by simp [keys]) hok2
  · intro hnone
    have hfail : fieldAction kwargs k spec = FieldAction.fail :=
      (fieldAction_fail_iff kwargs k spec).mpr ⟨hman, habs, hnone⟩
    obtain ⟨k0, hk0⟩ := firstMissing_of_fail kwargs testSchema k spec hdecl hfail
    constructor
    · intro data hok
      rw [build_args_test] at hok
      have hok2 : buildLoop kwargs testSchema [] = BuildResult.ok data := by
        injection hok
      rw [firstMissing_err kwargs testSchema k0 hk0 []] at hok2
      cases hok2
    · intro huniq
      obtain ⟨spec0, hmem0, hfail0⟩ := firstMissing_sound kwargs testSchema k0 hk0
      obtain ⟨hm0, hl0, hd0⟩ := (fieldAction_fail_iff kwargs k0 spec0).mp hfail0
      obtain rfl : k0 = k := huniq k0 spec0 hmem0 hm0 hd0 hl0
      rw [build_args_test, firstMissing_err kwargs testSchema k0 hk0 []]

/-- C2 witness: WebsiteName (mandatory, no default) omitted while
WebsiteURL is supplied: validation fails naming WebsiteName. -/
theorem build_args_mandatory_policy_witness :
    (("WebsiteName", FieldSpec.mk true Option.none) ∈ testSchema)
    ∧ ((FieldSpec.mk true Option.none).mandatory = true)
    ∧ (lookupF [("WebsiteURL", Value.str "u")] "WebsiteName" = Option.none)
    ∧ ((∀ d, (FieldSpec.mk true Option.none).default = Option.some d →
        ∀ data, build_args "test" [("WebsiteURL", Value.str "u")] =
            Except.ok (BuildResult.ok data) →
          lookupF data "WebsiteName" = Option.some d)
      ∧ ((FieldSpec.mk true Option.none).default = Option.none →
        (∀ data, build_args "test" [("WebsiteURL", Value.str "u")] ≠
          Except.ok (BuildResult.ok data))
        ∧ ((∀ k3 spec3, (k3, spec3) ∈ testSchema → spec3.mandatory = true →
              spec3.default = Option.none →
              lookupF [("WebsiteURL", Value.str "u")] k3 = Option.none →
              k3 = "WebsiteName") →
          build_args "test" [("WebsiteURL", Value.str "u")] =
            Except.ok (BuildResult.err "Mandatory params WebsiteName is missing")))) :=
  ⟨by decide, by decide, by decide,
   build_args_mandatory_policy [("WebsiteURL", Value.str "u")] "WebsiteName"
     (FieldSpec.mk true Option.none) (by decide) (by decide) (by decide)⟩

/-- C3: every field in the data dict of a successful build_args run is
declared in the schema of the requested resource type; caller supplied
fields outside the schema are dropped. -/
theorem build_args_only_declared (obj : String) (schema : Schema) (kwargs data : Fields)
    (hobj : lookupSchema STATUSCAKE_PARAMS_DEFINITION obj = Option.some schema)
    (hok : build_args obj kwargs = Except.ok (BuildResult.ok data)) :
    ∀ p ∈ data, p.1 ∈ keys schema := by
  intro p hp
  simp only [build_args, hobj] at hok
  have hok2 : buildLoop kwargs schema [] = BuildResult.ok data := by
    injection hok
  obtain ⟨tail, hdata, hsub⟩ := buildLoop_grow kwargs schema [] data hok2
  rw [hdata] at hp
  simp only [List.nil_append] at hp
  exact hsub p.1 (List.mem_map_of_mem Prod.fst hp)

/-- C3 witness: a supplied field Nope outside the schema is dropped; all
returned fields are declared. -/
theorem build_args_only_declared_witness :
    (lookupSchema STATUSCAKE_PARAMS_DEFINITION "test" = Option.some testSchema)
    ∧ (build_args "test"
        [("Nope", Value.int 1), ("WebsiteName", Value.str "a"),
         ("WebsiteURL", Value.str "b")] =
      Except.ok (BuildResult.ok
        [("WebsiteName", Value.str "a"), ("WebsiteURL", Value.str "b"),
         ("CheckRate", Value.int 300), ("TestType", Value.str "HTTP")]))
    ∧ (∀ p ∈ [("WebsiteName", Value.str "a"), ("WebsiteURL", Value.str "b"),
              ("CheckRate", Value.int 300), ("TestType", Value.str "HTTP")],
        p.1 ∈ keys testSchema) :=
  ⟨by decide, rfl,
   build_args_only_declared "test" testSchema
     [("Nope", Value.int 1), ("WebsiteName", Value.str "a"),
      ("WebsiteURL", Value.str "b")]
     [("WebsiteName", Value.str "a"), ("WebsiteURL", Value.str "b"),
      ("CheckRate", Value.int 300), ("TestType", Value.str "HTTP")]
     (by decide) rfl⟩

/-- C8: an optional schema field absent from the supplied kwargs whose
declared default is falsy, or that has no default, is omitted entirely
from the data dict of a successful build_args run. -/
theorem build_args_optional_falsy_omitted (kwargs : Fields) (k : String) (spec : FieldSpec)
    (hdecl : (k, spec) ∈ testSchema) (hopt : spec.mandatory = false)
    (habs : lookupF kwargs k = Option.none)
    (hfalsy : spec.default = Option.none ∨
      ∃ d, spec.default = Option.some d ∧ d.truthy = false) :
    ∀ data, build_args "test" kwargs = Except.ok (BuildResult.ok data) →
      k ∉ keys data := by
  intro data hok
  rw [build_args_test] at hok
  have hok2 : buildLoop kwargs testSchema [] = BuildResult.ok data := by
    injection hok
  have hact : fieldAction kwargs k spec = FieldAction.skip := by
    rcases hfalsy with hnone | ⟨d, hd, hdf⟩
    · simp [fieldAction, hopt, habs, hnone]
    · simp [fieldAction, hopt, habs, hd, hdf]
  exact buildLoop_skip_omits kwargs k spec testSchema [] data hdecl
    testSchema_keys_nodup hact (by simp [keys]) hok2

/-- C8 witness: Paused (optional, no default) omitted from input is
absent from the result. -/
theorem build_args_optional_falsy_omitted_witness :
    (("Paused", FieldSpec.mk false Option.none) ∈ testSchema)
    ∧ ((FieldSpec.mk false Option.none).mandatory = false)
    ∧ (lookupF [("WebsiteName", Value.str "a"), ("WebsiteURL", Value.str "b")]
        "Paused" = Option.none)
    ∧ ((FieldSpec.mk false Option.none).default = Option.none ∨
      ∃ d, (FieldSpec.mk false Option.none).default = Option.some d ∧
        d.truthy = false)
    ∧ (∀ data, build_args "test"
          [("WebsiteName", Value.str "a"), ("WebsiteURL", Value.str "b")] =
          Except.ok (BuildResult.ok data) →
        "Paused" ∉ keys data) :=
  ⟨by decide, by decide, by decide, Or.inl (by decide),
   build_args_optional_falsy_omitted
     [("WebsiteName", Value.str "a"), ("WebsiteURL", Value.str "b")] "Paused"
     (FieldSpec.mk false Option.none) (by decide) (by decide) (by decide)
     (Or.inl (by decide))⟩

/-! Helper lemmas about the search_test scan loop. -/

theorem searchLoop_absorb (name : String) (r : TestEntry) :
    ∀ data : List TestEntry,
      searchLoop name data
        (false, "We have multiple test with this name : " ++ name, Option.some r) =
        (false, "We have multiple test with this name : " ++ name, Option.some r) := by
  intro data
  induction data with
  | nil => rfl
  | cons t rest ih =>
    by_cases ht : t.WebsiteName = name
    · simpa [searchLoop, ht] using ih
    · simpa [searchLoop, ht] using ih

theorem searchLoop_from_some (name : String) (res0 : Bool) (msg0 : String) (r : TestEntry) :
    ∀ data : List TestEntry,
      searchLoop name data (res0, msg0, Option.some r) =
        if matchesName name data = [] then (res0, msg0, Option.some r)
        else (false, "We have multiple test with this name : " ++ name, Option.some r) := by
  intro data
  induction data with
  | nil => simp [searchLoop, matchesName]
  | cons t rest ih =>
    by_cases ht : t.WebsiteName = name
    · simp [searchLoop, ht, matchesName, searchLoop_absorb name r rest]
    · simpa [searchLoop, ht, matchesName] using ih

theorem searchLoop_no_match (name : String) :
    ∀ data : List TestEntry, matchesName name data = [] →
      searchLoop name data (true, "", Option.none) = (true, "", Option.none) := by
  intro data
  induction data with
  | nil => intro _; rfl
  | cons t rest ih =>
    intro h
    by_cases ht : t.WebsiteName = name
    · simp [matchesName, ht] at h
    · simp only [matchesName, if_neg ht] at h
      simpa [searchLoop, ht] using ih h

theorem searchLoop_single (name : String) (t : TestEntry) :
    ∀ data : List TestEntry, matchesName name data = [t] →
      searchLoop name data (true, "", Option.none) = (true, "", Option.some t) := by
  intro data
  induction data with
  | nil => intro h; cases h
  | cons u rest ih =>
    intro h
    by_cases hu : u.WebsiteName = name
    · simp only [matchesName, if_pos hu, List.cons.injEq] at h
      obtain ⟨rfl, hrest⟩ := h
      simp [searchLoop, hu, searchLoop_from_some, hrest]
    · simp only [matchesName, if_neg hu] at h
      simpa [searchLoop, hu] using ih h

theorem searchLoop_multi (name : String) (t t2 : TestEntry) (rest2 : List TestEntry) :
    ∀ data : List TestEntry, matchesName name data = t :: t2 :: rest2 →
      searchLoop name data (true, "", Option.none) =
        (false, "We have multiple test with this name : " ++ name, Option.some t) := by
  intro data
  induction data with
  | nil => intro h; cases h
  | cons u rest ih =>
    intro h
    by_cases hu : u.WebsiteName = name
    · simp only [matchesName, if_pos hu, List.cons.injEq] at h
      obtain ⟨rfl, hrest⟩ := h
      simp [searchLoop, hu, searchLoop_from_some, hrest]
    · simp only [matchesName, if_neg hu] at h
      simpa [searchLoop, hu] using ih h

/-- C1: for a successful full test list fetch, search_test returns the
not-found failure dict when no entry has the searched WebsiteName, the
res True dict carrying the TestID of the matching entry when exactly one
entry matches, and a res False dict whose message reports the ambiguity
when two or more entries match. -/
theorem search_test_matching_cases (name : String) (data : List TestEntry)
    (hname : name ≠ "") :
    (matchesName name data = [] →
      search_test name (FetchResult.ok data) =
        Except.ok { res := false,
                    message := "No test found with this name : " ++ name,
                    id := Option.none })
    ∧ (∀ t : TestEntry, matchesName name data = [t] →
      search_test name (FetchResult.ok data) =
        Except.ok { res := true, message := "", id := Option.some t.TestID })
    ∧ (∀ (t t2 : TestEntry) (rest2 : List TestEntry),
        matchesName name data = t :: t2 :: rest2 →
      ∃ out, search_test name (FetchResult.ok data) = Except.ok out ∧
        out.res = false ∧
        out.message = "We have multiple test with this name : " ++ name) := by
  refine ⟨?_, ?_, ?_⟩
  · intro h
    rw [search_test, if_neg hname]
    rw [searchLoop_no_match name data h]
  · intro t h
    rw [search_test, if_neg hname]
    rw [searchLoop_single name t data h]
  · intro t t2 rest2 h
    rw [search_test, if_neg hname]
    rw [searchLoop_multi name t t2 rest2 data h]
    exact ⟨_, rfl, rfl, rfl⟩

/-- C1 witness: concrete fixtures for the three cases at name a. -/
theorem search_test_matching_cases_witness :
    (("a" : String) ≠ "")
    ∧ ((matchesName "a" [⟨"b", 7⟩] = [] →
        search_test "a" (FetchResult.ok [⟨"b", 7⟩]) =
          Except.ok { res := false, message := "No test found with this name : a",
                      id := Option.none })
      ∧ (∀ t : TestEntry, matchesName "a" [⟨"b", 7⟩] = [t] →
        search_test "a" (FetchResult.ok [⟨"b", 7⟩]) =
          Except.ok { res := true, message := "", id := Option.some t.TestID })
      ∧ (∀ (t t2 : TestEntry) (rest2 : List TestEntry),
          matchesName "a" [⟨"b", 7⟩] = t :: t2 :: rest2 →
        ∃ out, search_test "a" (FetchResult.ok [⟨"b", 7⟩]) = Except.ok out ∧
          out.res = false ∧
          out.message = "We have multiple test with this name : a")) :=
  ⟨by decide, search_test_matching_cases "a" [⟨"b", 7⟩] (by decide)⟩

/-- C9: when two or more fetched entries carry the searched WebsiteName,
search_test returns a dict that has res False and the multiple-matches
message, but whose id key nevertheless holds the TestID of the first
matching entry in list order (the head of the filtered list). -/
theorem search_test_multi_sets_first_id (name : String) (data : List TestEntry)
    (t t2 : TestEntry) (rest2 : List TestEntry) (hname : name ≠ "")
    (hm : matchesName name data = t :: t2 :: rest2) :
    search_test name (FetchResult.ok data) =
      Except.ok { res := false,
                  message := "We have multiple test with this name : " ++ name,
                  id := Option.some t.TestID } := by
  rw [search_test, if_neg hname]
  rw [searchLoop_multi name t t2 rest2 data hm]

/-- C9 witness: two entries named a; the returned id is the TestID of
the first one. -/
theorem search_test_multi_sets_first_id_witness :
    matchesName "a" [⟨"a", 1⟩, ⟨"a", 2⟩] = [⟨"a", 1⟩, ⟨"a", 2⟩]
    ∧ search_test "a" (FetchResult.ok [⟨"a", 1⟩, ⟨"a", 2⟩]) =
        Except.ok { res := false,
                    message := "We have multiple test with this name : a",
                    id := Option.some 1 } :=
  ⟨by decide,
   search_test_multi_sets_first_id "a" [⟨"a", 1⟩, ⟨"a", 2⟩] ⟨"a", 1⟩ ⟨"a", 2⟩ []
     (by decide) (by decide)⟩

/-- C5: two expected error conditions on which the code raises an
uncaught NameError instead of returning a structured res/message dict: a
falsy name makes the guard in search_test evaluate the undefined
variable url, and any HTTP status other than OK or NO_CONTENT makes
_handle_generic_result evaluate the undefined variable url in its
logging branch. -/
theorem undefined_name_faults :
    search_test "" (FetchResult.ok []) = Except.error (PyError.nameError "url")
    ∧ handle_generic_result HttpResp.other = Except.error (PyError.nameError "url") :=
  ⟨rfl, rfl⟩

/-! The state layer present. -/

theorem add_test_trace_starts_create (WebsiteName WebsiteURL CheckRate TestType : Value)
    (api_key api_username : Option String) (kwargs : Fields) (env : Env) :
    ∃ tr, (add_test WebsiteName WebsiteURL CheckRate TestType
            api_key api_username kwargs env).2 = Event.createCall :: tr := by
  rcases hb : build_args "test" (setField (setField (setField (setField kwargs
      "WebsiteName" WebsiteName) "WebsiteURL" WebsiteURL) "CheckRate" CheckRate)
      "TestType" TestType) with e | br
  · simp only [add_test, hb]
    exact ⟨[], rfl⟩
  · rcases br with params | m
    · rcases hc1 : check_cred api_key env.apiKeyConfig
          "No Statuscake api_key found" with m1 | v1
      · simp only [add_test, hb, hc1]
        exact ⟨[], rfl⟩
      · rcases hc2 : check_cred api_username env.usernameConfig
            "No Statuscake username found" with m2 | v2
        · simp only [add_test, hb, hc1, hc2]
          exact ⟨[], rfl⟩
        · rcases hh : handle_generic_result env.putResp with e2 | r2
          · simp only [add_test, hb, hc1, hc2, hh]
            exact ⟨[Event.httpPut params], rfl⟩
          · simp only [add_test, hb, hc1, hc2, hh]
            exact ⟨[Event.httpPut params], rfl⟩
    · simp only [add_test, hb]
      exact ⟨[], rfl⟩

theorem present_res_false_trace (name W U : String) (CheckRate TestType : Value)
    (kwargs : Fields) (search : SearchResult) (env : Env) (hs : search.res = false) :
    (present name W U CheckRate TestType kwargs search false env).2 =
      (add_test (Value.str W) (Value.str U) CheckRate TestType
        Option.none Option.none kwargs env).2 := by
  rcases hadd : add_test (Value.str W) (Value.str U) CheckRate TestType
      Option.none Option.none kwargs env with ⟨r1, tr1⟩
  simp only [present, hs, Bool.false_eq_true, if_false, hadd]
  rcases r1 with e | g
  · rfl
  · rcases g with ⟨rb, m, raw⟩ | _
    · rcases rb
      · rfl
      · rcases raw with _ | resp <;> rfl
    · rfl

/-- C10: present branches only on the res flag of the search dict: for
every search outcome with res False, of any message or id (no match,
multiple matches, missing credentials, remote error), present with dry
run off invokes the create operation add_test. -/
theorem present_res_false_invokes_create (name W U : String) (CheckRate TestType : Value)
    (kwargs : Fields) (search : SearchResult) (env : Env) (hs : search.res = false) :
    Event.createCall ∈
      (present name W U CheckRate TestType kwargs search false env).2 := by
  rw [present_res_false_trace name W U CheckRate TestType kwargs search env hs]
  obtain ⟨tr, htr⟩ := add_test_trace_starts_create (Value.str W) (Value.str U)
    CheckRate TestType Option.none Option.none kwargs env
  rw [htr]
  exact List.mem_cons_self _ _

/-- C10 witness: a res False search dict coming from a remote error,
with missing credentials and a failing transport, still reaches the
create operation. -/
theorem present_res_false_invokes_create_witness :
    ((SearchResult.mk false "remote error" Option.none).res = false)
    ∧ Event.createCall ∈
        (present "N" "W" "U" (Value.int 60) (Value.str "HTTP") []
          (SearchResult.mk false "remote error" Option.none) false
          (Env.mk Option.none Option.none HttpResp.other)).2 :=
  ⟨by decide,
   present_res_false_invokes_create "N" "W" "U" (Value.int 60) (Value.str "HTTP") []
     (SearchResult.mk false "remote error" Option.none)
     (Env.mk Option.none Option.none HttpResp.other) (by decide)⟩

/-- C4: present called with only name, WebsiteName and WebsiteURL (the
Python defaults CheckRate=60 and TestType=HTTP, empty kwargs), a failed
remote search and dry run off issues exactly one create call, whose
validated field mapping carries CheckRate=60 and TestType=HTTP; on
create success the decision has result True, changes old None and
changes new holding the server provided Data. -/
theorem present_no_match_creates (name W U key user : String) (r : ServerResp)
    (search : SearchResult) (hs : search.res = false) (hr : r.Success = true) :
    present_defaults name W U [] search false
        (Env.mk (Option.some key) (Option.some user) (HttpResp.okJson r)) =
      (Except.ok { name := name, result := Option.some true,
                   comment := "Added test " ++ W ++ ".",
                   changesOld := Option.some Option.none,
                   changesNew := Option.some r.Data,
                   error := Option.none },
       [Event.createCall,
        Event.httpPut [("WebsiteName", Value.str W), ("WebsiteURL", Value.str U),
                       ("CheckRate", Value.int 60), ("TestType", Value.str "HTTP")]]) := by
  obtain ⟨rs, rm, rd⟩ := r
  obtain ⟨sres, smsg, sid⟩ := search
  simp only at hs hr
  subst hs hr
  rfl

/-- C4 witness: concrete create scenario with a simulated successful
server response. -/
theorem present_no_match_creates_witness :
    ((SearchResult.mk false "No test found with this name : W" Option.none).res = false)
    ∧ ((ServerResp.mk true "ok" (Value.str "created")).Success = true)
    ∧ present_defaults "N" "W" "https://w.test" []
        (SearchResult.mk false "No test found with this name : W" Option.none) false
        (Env.mk (Option.some "k") (Option.some "u")
          (HttpResp.okJson (ServerResp.mk true "ok" (Value.str "created")))) =
      (Except.ok { name := "N", result := Option.some true,
                   comment := "Added test W.",
                   changesOld := Option.some Option.none,
                   changesNew := Option.some (Value.str "created"),
                   error := Option.none },
       [Event.createCall,
        Event.httpPut [("WebsiteName", Value.str "W"),
                       ("WebsiteURL", Value.str "https://w.test"),
                       ("CheckRate", Value.int 60), ("TestType", Value.str "HTTP")]]) :=
  ⟨by decide, by decide,
   present_no_match_creates "N" "W" "https://w.test" "k" "u"
     (ServerResp.mk true "ok" (Value.str "created"))
     (SearchResult.mk false "No test found with this name : W" Option.none)
     (by decide) (by decide)⟩

/-- C6: when the remote search returns a match (res True with an id) and
dry run is off, present issues no create or update call (its effect
trace is empty) and reports a no-op: result True, empty changes, and the
explanatory comment, whatever the desired attributes, the supplied
kwargs and the environment are. -/
theorem present_found_noop (name W U : String) (CheckRate TestType : Value)
    (kwargs : Fields) (search : SearchResult) (env : Env) (tid : Int)
    (hs : search.res = true) (hid : search.id = Option.some tid) :
    present name W U CheckRate TestType kwargs search false env =
      (Except.ok { name := name, result := Option.some true,
                   comment := "Not updating because will cannot check data",
                   changesOld := Option.none, changesNew := Option.none,
                   error := Option.none }, []) := by
  obtain ⟨sres, smsg, sid⟩ := search
  simp only at hs hid
  subst hs hid
  rfl

/-- C6 witness: a found test with differing desired attributes still
yields the no-op decision and an empty effect trace. -/
theorem present_found_noop_witness :
    ((SearchResult.mk true "" (Option.some 42)).res = true)
    ∧ ((SearchResult.mk true "" (Option.some 42)).id = Option.some 42)
    ∧ present "N" "W" "U" (Value.int 999) (Value.str "TCP") [("Paused", Value.int 1)]
        (SearchResult.mk true "" (Option.some 42)) false
        (Env.mk (Option.some "k") (Option.some "u")
          (HttpResp.okJson (ServerResp.mk true "ok" Value.none))) =
      (Except.ok { name := "N", result := Option.some true,
                   comment := "Not updating because will cannot check data",
                   changesOld := Option.none, changesNew := Option.none,
                   error := Option.none }, []) :=
  ⟨by decide, by decide,
   present_found_noop "N" "W" "U" (Value.int 999) (Value.str "TCP")
     [("Paused", Value.int 1)] (SearchResult.mk true "" (Option.some 42))
     (Env.mk (Option.some "k") (Option.some "u")
       (HttpResp.okJson (ServerResp.mk true "ok" Value.none))) 42
     (by decide) (by decide)⟩

/-- C6 counterexample: with dry run on, a call whose remote search
returns a match still issues no write, but the decision does not report
the no-op: its result field is Option.none (pending), not
Option.some true, and its comment announces an update. -/
theorem present_found_dry_run_not_noop :
    present "N" "W" "U" (Value.int 60) (Value.str "HTTP") []
        (SearchResult.mk true "" (Option.some 42)) true
        (Env.mk Option.none Option.none HttpResp.other) =
      (Except.ok { name := "N", result := Option.none,
                   comment := "Statuscake tests W set to be updated.",
                   changesOld := Option.none, changesNew := Option.none,
                   error := Option.none }, []) := rfl

/-- C7: with dry run on and a failed remote search, present performs
zero remote write operations (empty effect trace) and signals the
pending decision by result None. -/
theorem present_dry_run_pending (name W U : String) (kwargs : Fields)
    (search : SearchResult) (env : Env) (hs : search.res = false) :
    present_defaults name W U kwargs search true env =
      (Except.ok { name := name, result := Option.none,
                   comment := "Statuscake test " ++ W ++ " set to be added.",
                   changesOld := Option.none, changesNew := Option.none,
                   error := Option.none }, []) := by
  obtain ⟨sres, smsg, sid⟩ := search
  simp only at hs
  subst hs
  rfl

/-- C7 witness: the dry run call of the C4 scenario writes nothing and
returns result None. -/
theorem present_dry_run_pending_witness :
    ((SearchResult.mk false "No test found with this name : W" Option.none).res = false)
    ∧ present_defaults "N" "W" "https://w.test" []
        (SearchResult.mk false "No test found with this name : W" Option.none) true
        (Env.mk (Option.some "k") (Option.some "u")
          (HttpResp.okJson (ServerResp.mk true "ok" (Value.str "created")))) =
      (Except.ok { name := "N", result := Option.none,
                   comment := "Statuscake test W set to be added.",
                   changesOld := Option.none, changesNew := Option.none,
                   error := Option.none }, []) :=
  ⟨by decide,
   present_dry_run_pending "N" "W" "https://w.test" []
     (SearchResult.mk false "No test found with this name : W" Option.none)
     (Env.mk (Option.some "k") (Option.some "u")
       (HttpResp.okJson (ServerResp.mk true "ok" (Value.str "created"))))
     (by decide)⟩

end Statuscake
